import Mathlib

/-!
Verification of the gesture-classification core of the smart soldering station
repository.  The Python module src/gestures.py is embedded shallowly: landmark
lists become lists of real-coordinate points, the geometry helpers become
functions on the reals, and the stateful direction tracker plus the dispatch
loop of src/demo.py become explicit state-passing step functions.
-/

open Classical

namespace Gestures

/-- A hand landmark: normalized x and y coordinates plus a relative depth z. -/
@[ext]
structure Landmark where
  x : ℝ
  y : ℝ
  z : ℝ

/-- The all-zero landmark, used as the default for guarded list indexing. -/
def zl : Landmark := ⟨0, 0, 0⟩

/-- Landmark lookup landmarks[i]; every use below is behind the length guards
of the source, so the default is never read on the guarded paths. -/
def lm (landmarks : List Landmark) (i : ℕ) : Landmark := landmarks.getD i zl

/-- Planar distance, math.hypot over x and y only (source _dist). -/
noncomputable def _dist (a b : Landmark) : ℝ :=
  Real.sqrt ((a.x - b.x) ^ 2 + (a.y - b.y) ^ 2)

/-- Angle in degrees at vertex b between vectors a - b and c - b, in 3D,
with the degenerate zero-length case mapped to 180 (source _angle_between). -/
noncomputable def _angle_between (a b c : Landmark) : ℝ :=
  let v1 : ℝ × ℝ × ℝ := (a.x - b.x, a.y - b.y, a.z - b.z)
  let v2 : ℝ × ℝ × ℝ := (c.x - b.x, c.y - b.y, c.z - b.z)
  let dot := v1.1 * v2.1 + v1.2.1 * v2.2.1 + v1.2.2 * v2.2.2
  let n1 := Real.sqrt (v1.1 ^ 2 + v1.2.1 ^ 2 + v1.2.2 ^ 2)
  let n2 := Real.sqrt (v2.1 ^ 2 + v2.2.1 ^ 2 + v2.2.2 ^ 2)
  if n1 = 0 ∨ n2 = 0 then 180
  else
    let cosang := max (-1) (min 1 (dot / (n1 * n2)))
    Real.arccos cosang * (180 / Real.pi)

/-- Pinch predicate: thumb tip (4) close to index tip (8) in the plane.
The source guard is "not landmarks or len(landmarks) < 9". -/
def is_pinch (landmarks : List Landmark) (thresh : ℝ) : Prop :=
  if landmarks = [] ∨ landmarks.length < 9 then False
  else _dist (lm landmarks 4) (lm landmarks 8) < thresh

/-- Fist predicate: mean fingertip-to-wrist planar distance is small. -/
def is_fist (landmarks : List Landmark) (thresh : ℝ) : Prop :=
  if landmarks = [] ∨ landmarks.length < 21 then False
  else
    let wrist := lm landmarks 0
    let tips := [lm landmarks 4, lm landmarks 8, lm landmarks 12,
                 lm landmarks 16, lm landmarks 20]
    (tips.map fun t => _dist wrist t).sum / 5 < thresh

/-- Open-hand predicate: mean fingertip-to-wrist planar distance is large. -/
def is_open_hand (landmarks : List Landmark) (thresh : ℝ) : Prop :=
  if landmarks = [] ∨ landmarks.length < 21 then False
  else
    let wrist := lm landmarks 0
    let tips := [lm landmarks 4, lm landmarks 8, lm landmarks 12,
                 lm landmarks 16, lm landmarks 20]
    (tips.map fun t => _dist wrist t).sum / 5 > thresh

/-- Pointing-index predicate: index tip far from the wrist compared to the
mean of the other four tips. -/
def is_pointing_index (landmarks : List Landmark) (thresh : ℝ) : Prop :=
  if landmarks = [] ∨ landmarks.length < 21 then False
  else
    let wrist := lm landmarks 0
    let index_tip := lm landmarks 8
    let other_tips := [lm landmarks 4, lm landmarks 12,
                       lm landmarks 16, lm landmarks 20]
    _dist wrist index_tip > (other_tips.map fun t => _dist wrist t).sum / 4 + thresh

/-- Angle threshold of count_extended_fingers. -/
def angle_threshold : ℝ := 140

/-- Thumb extension test of count_extended_fingers: angle at the IP joint
exceeds the threshold, or the planar wrist-to-thumb-tip distance exceeds
0.15. -/
def thumb_extended (landmarks : List Landmark) : Prop :=
  _angle_between (lm landmarks 2) (lm landmarks 3) (lm landmarks 4) > angle_threshold ∨
    _dist (lm landmarks 0) (lm landmarks 4) > 0.15

/-- Non-thumb finger extension test of count_extended_fingers for the joint
triple (MCP, PIP, TIP): angle at the PIP joint exceeds the threshold and the
tip is no lower than the MCP plus the 0.05 tolerance. -/
def finger_extended (landmarks : List Landmark) (mcp_i pip_i tip_i : ℕ) : Prop :=
  _angle_between (lm landmarks mcp_i) (lm landmarks pip_i) (lm landmarks tip_i) >
      angle_threshold ∧
    (lm landmarks tip_i).y < (lm landmarks mcp_i).y + 0.05

/-- Number of extended fingers, 0 to 5.  The source accumulates one unit per
passing finger over thumb, index (5,6,8), middle (9,10,12), ring (13,14,16)
and pinky (17,18,20); the handedness argument is accepted and ignored, as in
the source. -/
noncomputable def count_extended_fingers (landmarks : List Landmark)
    (handedness : Option String) : ℕ :=
  if landmarks = [] ∨ landmarks.length < 21 then 0
  else
    (if thumb_extended landmarks then 1 else 0) +
    (if finger_extended landmarks 5 6 8 then 1 else 0) +
    (if finger_extended landmarks 9 10 12 then 1 else 0) +
    (if finger_extended landmarks 13 14 16 then 1 else 0) +
    (if finger_extended landmarks 17 18 20 then 1 else 0)

/-- Gesture classifier: pinch first, then the finger count mapped to a name;
the final fallback of the source returns None. -/
noncomputable def detect_gesture_with_handedness (landmarks : List Landmark)
    (handedness : Option String) : Option String :=
  if is_pinch landmarks 0.05 then some "pinch"
  else
    match count_extended_fingers landmarks handedness with
    | 0 => some "fist"
    | 1 => some "one"
    | 2 => some "two"
    | 3 => some "three"
    | 4 => some "four"
    | 5 => some "five"
    | _ => none

/-- Classifier without a handedness label. -/
noncomputable def detect_gesture (landmarks : List Landmark) : Option String :=
  detect_gesture_with_handedness landmarks none

/-- Hand center: arithmetic mean of the x and y coordinates. -/
noncomputable def get_hand_center (landmarks : List Landmark) : ℝ × ℝ :=
  if landmarks = [] then (0, 0)
  else ((landmarks.map Landmark.x).sum / landmarks.length,
        (landmarks.map Landmark.y).sum / landmarks.length)

/-- Movement threshold of the direction tracker. -/
def movement_threshold : ℝ := 0.05

/-- Direction tracker step.  The module-level previous-center slot of the
source is passed and returned explicitly; the returned pair carries the
detected direction and the updated slot. -/
noncomputable def detect_movement_direction (prev : Option (ℝ × ℝ))
    (landmarks : List Landmark) : Option String × Option (ℝ × ℝ) :=
  let current := get_hand_center landmarks
  match prev with
  | none => (none, some current)
  | some p =>
    let dx := current.1 - p.1
    let dy := current.2 - p.2
    let movement := Real.sqrt (dx * dx + dy * dy)
    if movement < movement_threshold then (none, some current)
    else if |dx| > |dy| then
      (if dx > 0 then some "right" else some "left", some current)
    else
      (if dy > 0 then some "down" else some "up", some current)

/-- Result record of detect_gesture_with_direction. -/
structure GestureInfo where
  gesture : Option String
  direction : Option String
  combined : Option String

/-- Combined classification: gesture plus direction, with the combined label
"gesture_direction" when both exist and the plain gesture otherwise.  The
updated tracker slot is returned alongside. -/
noncomputable def detect_gesture_with_direction (prev : Option (ℝ × ℝ))
    (landmarks : List Landmark) (handedness : Option String) :
    GestureInfo × Option (ℝ × ℝ) :=
  let gesture := detect_gesture_with_handedness landmarks handedness
  let dres := detect_movement_direction prev landmarks
  let combined :=
    match gesture, dres.1 with
    | some g, some d => some (g ++ "_" ++ d)
    | _, _ => gesture
  (⟨gesture, dres.1, combined⟩, dres.2)

/-- Mutable state of the dispatch loop of src/demo.py: the debounce slots
last_gesture and last_sent, plus the direction tracker slot. -/
structure LoopState where
  last_gesture : Option String
  last_sent : ℝ
  prev_center : Option (ℝ × ℝ)

/-- Initial loop state: nothing emitted, last_sent = 0.0, tracker unset. -/
def init_state : LoopState := ⟨none, 0, none⟩

/-- One iteration of the dispatch loop body of src/demo.py (lines 175-238),
restricted to its gesture-processing core: a frame is either absent (no hand
detected) or carries the landmark list and handedness of the first hand.  No
configuration mapping is loaded, so the emitted command is the combined
gesture itself.  Returns the next state and the command sent, if any. -/
noncomputable def demo_step (st : LoopState)
    (frame : Option (List Landmark × Option String)) (now : ℝ) :
    LoopState × Option String :=
  let gc : Option String × Option String × Option (ℝ × ℝ) :=
    match frame with
    | some (lms, hd) =>
      let r := detect_gesture_with_direction st.prev_center lms hd
      (r.1.gesture, r.1.combined, r.2)
    | none => (none, none, st.prev_center)
  let gesture := gc.1
  let combined := gc.2.1
  let prev2 := gc.2.2
  if gesture ≠ none ∧ 0.5 < now - st.last_sent then
    let current := combined.getD (gesture.getD "")
    if some current ≠ st.last_gesture then
      (⟨some current, now, prev2⟩, some current)
    else
      (⟨st.last_gesture, st.last_sent, prev2⟩, none)
  else if gesture = none then
    (⟨st.last_gesture, st.last_sent, none⟩, none)
  else
    (⟨st.last_gesture, st.last_sent, prev2⟩, none)

/-- Run of the dispatch loop over a list of (frame, timestamp) pairs,
collecting the emitted commands in order. -/
noncomputable def demo_run (st : LoopState)
    (frames : List (Option (List Landmark × Option String) × ℝ)) :
    LoopState × List String :=
  match frames with
  | [] => (st, [])
  | f :: rest =>
    let r1 := demo_step st f.1 f.2
    let r2 := demo_run r1.1 rest
    (r2.1, r1.2.toList ++ r2.2)

/-- Combined gesture computed by demo_step for a frame, used to state the
emission condition. -/
noncomputable def frame_combined (st : LoopState)
    (frame : Option (List Landmark × Option String)) : Option String :=
  match frame with
  | some (lms, hd) => (detect_gesture_with_direction st.prev_center lms hd).1.combined
  | none => none

/-- Per-finger extension test of the code, indexed 0 = thumb, 1 = index,
2 = middle, 3 = ring, 4 = pinky, matching the accumulation order of
count_extended_fingers. -/
def code_extended (landmarks : List Landmark) : Fin 5 → Prop
  | 0 => thumb_extended landmarks
  | 1 => finger_extended landmarks 5 6 8
  | 2 => finger_extended landmarks 9 10 12
  | 3 => finger_extended landmarks 13 14 16
  | 4 => finger_extended landmarks 17 18 20

/-- Extension rule as worded by the specification, section 4.2: for the four
non-thumb fingers the PIP angle must exceed 140 degrees and the tip y must be
below the MCP y plus 0.05; for the thumb the IP angle must exceed 140 degrees
or the planar wrist-to-thumb-tip distance must exceed 0.15. -/
def spec_extended (landmarks : List Landmark) : Fin 5 → Prop
  | 0 => _angle_between (lm landmarks 2) (lm landmarks 3) (lm landmarks 4) > 140 ∨
         _dist (lm landmarks 0) (lm landmarks 4) > 0.15
  | 1 => _angle_between (lm landmarks 5) (lm landmarks 6) (lm landmarks 8) > 140 ∧
         (lm landmarks 8).y < (lm landmarks 5).y + 0.05
  | 2 => _angle_between (lm landmarks 9) (lm landmarks 10) (lm landmarks 12) > 140 ∧
         (lm landmarks 12).y < (lm landmarks 9).y + 0.05
  | 3 => _angle_between (lm landmarks 13) (lm landmarks 14) (lm landmarks 16) > 140 ∧
         (lm landmarks 16).y < (lm landmarks 13).y + 0.05
  | 4 => _angle_between (lm landmarks 17) (lm landmarks 18) (lm landmarks 20) > 140 ∧
         (lm landmarks 20).y < (lm landmarks 17).y + 0.05

/-- Number of fingers satisfying the extension rule of the specification. -/
noncomputable def spec_count (landmarks : List Landmark) : ℕ :=
  (Finset.univ.filter fun f => spec_extended landmarks f).card

/-- Anatomical landmark indices of each finger: thumb 1-4, index 5-8,
middle 9-12, ring 13-16, pinky 17-20.  The wrist (index 0) belongs to no
finger. -/
def finger_indices : Fin 5 → List ℕ
  | 0 => [1, 2, 3, 4]
  | 1 => [5, 6, 7, 8]
  | 2 => [9, 10, 11, 12]
  | 3 => [13, 14, 15, 16]
  | 4 => [17, 18, 19, 20]

/-! Concrete hands used to exercise the classifier and the dispatch loop. -/

/-- All 21 landmarks at the origin; thumb tip and index tip coincide, so the
pinch test fires. -/
def pinch_hand : List Landmark :=
  [zl, zl, zl, zl, zl, zl, zl, zl, zl, zl, zl,
   zl, zl, zl, zl, zl, zl, zl, zl, zl, zl]

/-- A hand whose index and middle fingers are straight and upright while the
thumb, ring and pinky are bent at right angles, and whose thumb and index
tips are far apart: it classifies as "two". -/
def two_hand : List Landmark :=
  [⟨0, 0, 0⟩,
   ⟨0, 0, 0⟩,
   ⟨0.1, 0, 0⟩,
   ⟨0, 0, 0⟩,
   ⟨0, 0.1, 0⟩,
   ⟨0.5, 0.2, 0⟩,
   ⟨0.5, 0.1, 0⟩,
   ⟨0, 0, 0⟩,
   ⟨0.5, 0, 0⟩,
   ⟨0.6, 0.2, 0⟩,
   ⟨0.6, 0.1, 0⟩,
   ⟨0, 0, 0⟩,
   ⟨0.6, 0, 0⟩,
   ⟨0.7, 0.1, 0⟩,
   ⟨0.7, 0, 0⟩,
   ⟨0, 0, 0⟩,
   ⟨0.8, 0, 0⟩,
   ⟨0.9, 0.1, 0⟩,
   ⟨0.9, 0, 0⟩,
   ⟨0, 0, 0⟩,
   ⟨1, 0, 0⟩]

/-- Same as two_hand except that the ring tip (index 16) now coincides with
the ring PIP, which makes the ring finger count as extended through the
degenerate-angle policy: it classifies as "three". -/
def three_hand : List Landmark :=
  [⟨0, 0, 0⟩,
   ⟨0, 0, 0⟩,
   ⟨0.1, 0, 0⟩,
   ⟨0, 0, 0⟩,
   ⟨0, 0.1, 0⟩,
   ⟨0.5, 0.2, 0⟩,
   ⟨0.5, 0.1, 0⟩,
   ⟨0, 0, 0⟩,
   ⟨0.5, 0, 0⟩,
   ⟨0.6, 0.2, 0⟩,
   ⟨0.6, 0.1, 0⟩,
   ⟨0, 0, 0⟩,
   ⟨0.6, 0, 0⟩,
   ⟨0.7, 0.1, 0⟩,
   ⟨0.7, 0, 0⟩,
   ⟨0, 0, 0⟩,
   ⟨0.7, 0, 0⟩,
   ⟨0.9, 0.1, 0⟩,
   ⟨0.9, 0, 0⟩,
   ⟨0, 0, 0⟩,
   ⟨1, 0, 0⟩]

/-- A hand with every landmark at (0.1, 0, 0), used to witness a rightward
center shift from the origin. -/
def right_hand : List Landmark :=
  [⟨0.1, 0, 0⟩, ⟨0.1, 0, 0⟩, ⟨0.1, 0, 0⟩, ⟨0.1, 0, 0⟩, ⟨0.1, 0, 0⟩,
   ⟨0.1, 0, 0⟩, ⟨0.1, 0, 0⟩, ⟨0.1, 0, 0⟩, ⟨0.1, 0, 0⟩, ⟨0.1, 0, 0⟩,
   ⟨0.1, 0, 0⟩, ⟨0.1, 0, 0⟩, ⟨0.1, 0, 0⟩, ⟨0.1, 0, 0⟩, ⟨0.1, 0, 0⟩,
   ⟨0.1, 0, 0⟩, ⟨0.1, 0, 0⟩, ⟨0.1, 0, 0⟩, ⟨0.1, 0, 0⟩, ⟨0.1, 0, 0⟩,
   ⟨0.1, 0, 0⟩]

/-- A hand with every landmark at (0, 0.1, 0), used to witness a downward
center shift from the origin. -/
def down_hand : List Landmark :=
  [⟨0, 0.1, 0⟩, ⟨0, 0.1, 0⟩, ⟨0, 0.1, 0⟩, ⟨0, 0.1, 0⟩, ⟨0, 0.1, 0⟩,
   ⟨0, 0.1, 0⟩, ⟨0, 0.1, 0⟩, ⟨0, 0.1, 0⟩, ⟨0, 0.1, 0⟩, ⟨0, 0.1, 0⟩,
   ⟨0, 0.1, 0⟩, ⟨0, 0.1, 0⟩, ⟨0, 0.1, 0⟩, ⟨0, 0.1, 0⟩, ⟨0, 0.1, 0⟩,
   ⟨0, 0.1, 0⟩, ⟨0, 0.1, 0⟩, ⟨0, 0.1, 0⟩, ⟨0, 0.1, 0⟩, ⟨0, 0.1, 0⟩,
   ⟨0, 0.1, 0⟩]

/-! Helper lemmas for evaluating the real-valued geometry. -/

/-- Evaluate a square root whose argument is an explicit square. -/
lemma sqrt_eval {x y : ℝ} (hy : 0 ≤ y) (h : x = y ^ 2) : Real.sqrt x = y := by
  rw [h, Real.sqrt_sq hy]

/-- Evaluate a planar distance whose squared value is an explicit square. -/
lemma _dist_eval {a b : Landmark} {r : ℝ} (hr : 0 ≤ r)
    (h : (a.x - b.x) ^ 2 + (a.y - b.y) ^ 2 = r ^ 2) : _dist a b = r := by
  unfold _dist
  rw [h, Real.sqrt_sq hr]

/-- Squared norm of the difference vector of two distinct landmarks is
positive. -/
lemma normsq_pos {a b : Landmark} (hab : a ≠ b) :
    0 < (a.x - b.x) ^ 2 + (a.y - b.y) ^ 2 + (a.z - b.z) ^ 2 := by
  rcases lt_or_eq_of_le (by positivity :
      (0:ℝ) ≤ (a.x - b.x) ^ 2 + (a.y - b.y) ^ 2 + (a.z - b.z) ^ 2) with h | h
  · exact h
  · exfalso
    apply hab
    have hx : (a.x - b.x) ^ 2 = 0 := by
      nlinarith [sq_nonneg (a.x - b.x), sq_nonneg (a.y - b.y), sq_nonneg (a.z - b.z)]
    have hy : (a.y - b.y) ^ 2 = 0 := by
      nlinarith [sq_nonneg (a.x - b.x), sq_nonneg (a.y - b.y), sq_nonneg (a.z - b.z)]
    have hz : (a.z - b.z) ^ 2 = 0 := by
      nlinarith [sq_nonneg (a.x - b.x), sq_nonneg (a.y - b.y), sq_nonneg (a.z - b.z)]
    ext
    · nlinarith [hx]
    · nlinarith [hy]
    · nlinarith [hz]

/-- Cauchy and Schwarz inequality for triples, Lagrange form. -/
lemma dot_sq_le (x1 y1 z1 x2 y2 z2 : ℝ) :
    (x1 * x2 + y1 * y2 + z1 * z2) ^ 2 ≤
      (x1 ^ 2 + y1 ^ 2 + z1 ^ 2) * (x2 ^ 2 + y2 ^ 2 + z2 ^ 2) := by
  nlinarith [sq_nonneg (x1 * y2 - y1 * x2), sq_nonneg (x1 * z2 - z1 * x2),
    sq_nonneg (y1 * z2 - z1 * y2)]

/-- Degenerate angle: when either endpoint coincides with the vertex, the
source returns 180 degrees. -/
lemma angle_between_degenerate {a b c : Landmark} (h : a = b ∨ c = b) :
    _angle_between a b c = 180 := by
  unfold _angle_between
  rcases h with h | h <;> subst h <;>
    simp [sub_self, Real.sqrt_eq_zero le_rfl]

/-- Nondegenerate angle: the clamp of the source does not act, and the value
is the arccos of the normalized dot product, converted to degrees. -/
lemma angle_between_eq {a b c : Landmark} (hab : a ≠ b) (hcb : c ≠ b) :
    _angle_between a b c =
      Real.arccos
        (((a.x - b.x) * (c.x - b.x) + (a.y - b.y) * (c.y - b.y) +
            (a.z - b.z) * (c.z - b.z)) /
          (Real.sqrt ((a.x - b.x) ^ 2 + (a.y - b.y) ^ 2 + (a.z - b.z) ^ 2) *
            Real.sqrt ((c.x - b.x) ^ 2 + (c.y - b.y) ^ 2 + (c.z - b.z) ^ 2))) *
        (180 / Real.pi) := by
  have hS1 : 0 < (a.x - b.x) ^ 2 + (a.y - b.y) ^ 2 + (a.z - b.z) ^ 2 := normsq_pos hab
  have hS2 : 0 < (c.x - b.x) ^ 2 + (c.y - b.y) ^ 2 + (c.z - b.z) ^ 2 := normsq_pos hcb
  have hn1 : 0 < Real.sqrt ((a.x - b.x) ^ 2 + (a.y - b.y) ^ 2 + (a.z - b.z) ^ 2) :=
    Real.sqrt_pos.mpr hS1
  have hn2 : 0 < Real.sqrt ((c.x - b.x) ^ 2 + (c.y - b.y) ^ 2 + (c.z - b.z) ^ 2) :=
    Real.sqrt_pos.mpr hS2
  have habs : |(a.x - b.x) * (c.x - b.x) + (a.y - b.y) * (c.y - b.y) +
      (a.z - b.z) * (c.z - b.z)| ≤
      Real.sqrt ((a.x - b.x) ^ 2 + (a.y - b.y) ^ 2 + (a.z - b.z) ^ 2) *
        Real.sqrt ((c.x - b.x) ^ 2 + (c.y - b.y) ^ 2 + (c.z - b.z) ^ 2) := by
    rw [← Real.sqrt_sq_eq_abs, ← Real.sqrt_mul (le_of_lt hS1)]
    exact Real.sqrt_le_sqrt (dot_sq_le _ _ _ _ _ _)
  have hq : |((a.x - b.x) * (c.x - b.x) + (a.y - b.y) * (c.y - b.y) +
      (a.z - b.z) * (c.z - b.z)) /
      (Real.sqrt ((a.x - b.x) ^ 2 + (a.y - b.y) ^ 2 + (a.z - b.z) ^ 2) *
        Real.sqrt ((c.x - b.x) ^ 2 + (c.y - b.y) ^ 2 + (c.z - b.z) ^ 2))| ≤ 1 := by
    rw [abs_div]
    rw [abs_of_pos (mul_pos hn1 hn2)]
    exact div_le_one_of_le₀ habs (le_of_lt (mul_pos hn1 hn2))
  obtain ⟨hq1, hq2⟩ := abs_le.mp hq
  unfold _angle_between
  rw [if_neg]
  · simp only []
    rw [min_eq_right hq2, max_eq_right hq1]
  · push_neg
    exact ⟨ne_of_gt hn1, ne_of_gt hn2⟩

/-- Antiparallel configuration: when the second vector is the exact negation
of the first and the first is nonzero, the angle is 180 degrees. -/
lemma angle_between_opposite {a b c : Landmark}
    (hx : c.x - b.x = -(a.x - b.x)) (hy : c.y - b.y = -(a.y - b.y))
    (hz : c.z - b.z = -(a.z - b.z)) (hab : a ≠ b) :
    _angle_between a b c = 180 := by
  have hcb : c ≠ b := by
    intro h
    subst h
    apply hab
    ext <;> nlinarith [hx, hy, hz]
  rw [angle_between_eq hab hcb, hx, hy, hz]
  have hS1 : 0 < (a.x - b.x) ^ 2 + (a.y - b.y) ^ 2 + (a.z - b.z) ^ 2 := normsq_pos hab
  have hrw : (-(a.x - b.x)) ^ 2 + (-(a.y - b.y)) ^ 2 + (-(a.z - b.z)) ^ 2 =
      (a.x - b.x) ^ 2 + (a.y - b.y) ^ 2 + (a.z - b.z) ^ 2 := by ring
  rw [hrw]
  have hsq : Real.sqrt ((a.x - b.x) ^ 2 + (a.y - b.y) ^ 2 + (a.z - b.z) ^ 2) *
      Real.sqrt ((a.x - b.x) ^ 2 + (a.y - b.y) ^ 2 + (a.z - b.z) ^ 2) =
      (a.x - b.x) ^ 2 + (a.y - b.y) ^ 2 + (a.z - b.z) ^ 2 :=
    Real.mul_self_sqrt (le_of_lt hS1)
  have hdot : (a.x - b.x) * -(a.x - b.x) + (a.y - b.y) * -(a.y - b.y) +
      (a.z - b.z) * -(a.z - b.z) =
      -((a.x - b.x) ^ 2 + (a.y - b.y) ^ 2 + (a.z - b.z) ^ 2) := by ring
  rw [hdot, hsq]
  rw [neg_div, div_self (ne_of_gt hS1)]
  rw [Real.arccos_neg_one]
  field_simp

/-- Perpendicular configuration: zero dot product with nonzero vectors gives
90 degrees. -/
lemma angle_between_perp {a b c : Landmark}
    (hdot : (a.x - b.x) * (c.x - b.x) + (a.y - b.y) * (c.y - b.y) +
      (a.z - b.z) * (c.z - b.z) = 0)
    (hab : a ≠ b) (hcb : c ≠ b) :
    _angle_between a b c = 90 := by
  rw [angle_between_eq hab hcb, hdot, zero_div, Real.arccos_zero]
  field_simp
  ring

/-! Evaluation of the classifier on the concrete hands. -/

lemma is_pinch_pinch_hand : is_pinch pinch_hand 0.05 := by
  unfold is_pinch
  rw [if_neg (by simp [pinch_hand])]
  have h4 : lm pinch_hand 4 = zl := rfl
  have h8 : lm pinch_hand 8 = zl := rfl
  rw [h4, h8, _dist_eval (le_refl (0:ℝ)) (by norm_num [zl])]
  norm_num

lemma detect_pinch_hand (hd : Option String) :
    detect_gesture_with_handedness pinch_hand hd = some "pinch" := by
  unfold detect_gesture_with_handedness
  rw [if_pos is_pinch_pinch_hand]

lemma not_is_pinch_two_hand : ¬ is_pinch two_hand 0.05 := by
  unfold is_pinch
  rw [if_neg (by simp [two_hand])]
  have h4 : lm two_hand 4 = ⟨0, 0.1, 0⟩ := rfl
  have h8 : lm two_hand 8 = ⟨0.5, 0, 0⟩ := rfl
  rw [h4, h8]
  unfold _dist
  push_neg
  exact Real.le_sqrt_of_sq_le (by norm_num)

lemma not_thumb_two_hand : ¬ thumb_extended two_hand := by
  unfold thumb_extended
  push_neg
  constructor
  · have h2 : lm two_hand 2 = ⟨0.1, 0, 0⟩ := rfl
    have h3 : lm two_hand 3 = ⟨0, 0, 0⟩ := rfl
    have h4 : lm two_hand 4 = ⟨0, 0.1, 0⟩ := rfl
    rw [h2, h3, h4, angle_between_perp (by norm_num)
      (by simp [Landmark.ext_iff]; norm_num) (by simp [Landmark.ext_iff]; norm_num)]
    norm_num [angle_threshold]
  · have h0 : lm two_hand 0 = ⟨0, 0, 0⟩ := rfl
    have h4 : lm two_hand 4 = ⟨0, 0.1, 0⟩ := rfl
    rw [h0, h4, _dist_eval (by norm_num : (0:ℝ) ≤ 0.1) (by norm_num)]
    norm_num

lemma index_two_hand : finger_extended two_hand 5 6 8 := by
  unfold finger_extended
  have h5 : lm two_hand 5 = ⟨0.5, 0.2, 0⟩ := rfl
  have h6 : lm two_hand 6 = ⟨0.5, 0.1, 0⟩ := rfl
  have h8 : lm two_hand 8 = ⟨0.5, 0, 0⟩ := rfl
  rw [h5, h6, h8]
  constructor
  · rw [angle_between_opposite (by norm_num) (by norm_num) (by norm_num)
      (by simp [Landmark.ext_iff]; norm_num)]
    norm_num [angle_threshold]
  · norm_num

lemma middle_two_hand : finger_extended two_hand 9 10 12 := by
  unfold finger_extended
  have h9 : lm two_hand 9 = ⟨0.6, 0.2, 0⟩ := rfl
  have h10 : lm two_hand 10 = ⟨0.6, 0.1, 0⟩ := rfl
  have h12 : lm two_hand 12 = ⟨0.6, 0, 0⟩ := rfl
  rw [h9, h10, h12]
  constructor
  · rw [angle_between_opposite (by norm_num) (by norm_num) (by norm_num)
      (by simp [Landmark.ext_iff]; norm_num)]
    norm_num [angle_threshold]
  · norm_num

lemma not_ring_two_hand : ¬ finger_extended two_hand 13 14 16 := by
  unfold finger_extended
  have h13 : lm two_hand 13 = ⟨0.7, 0.1, 0⟩ := rfl
  have h14 : lm two_hand 14 = ⟨0.7, 0, 0⟩ := rfl
  have h16 : lm two_hand 16 = ⟨0.8, 0, 0⟩ := rfl
  rw [h13, h14, h16]
  intro h
  have := h.1
  rw [angle_between_perp (by norm_num)
    (by simp [Landmark.ext_iff]; norm_num) (by simp [Landmark.ext_iff]; norm_num)] at this
  norm_num [angle_threshold] at this

lemma not_pinky_two_hand : ¬ finger_extended two_hand 17 18 20 := by
  unfold finger_extended
  have h17 : lm two_hand 17 = ⟨0.9, 0.1, 0⟩ := rfl
  have h18 : lm two_hand 18 = ⟨0.9, 0, 0⟩ := rfl
  have h20 : lm two_hand 20 = ⟨1, 0, 0⟩ := rfl
  rw [h17, h18, h20]
  intro h
  have := h.1
  rw [angle_between_perp (by norm_num)
    (by simp [Landmark.ext_iff]; norm_num) (by simp [Landmark.ext_iff]; norm_num)] at this
  norm_num [angle_threshold] at this

lemma count_two_hand (hd : Option String) : count_extended_fingers two_hand hd = 2 := by
  unfold count_extended_fingers
  rw [if_neg (by simp [two_hand])]
  rw [if_neg not_thumb_two_hand, if_pos index_two_hand, if_pos middle_two_hand,
    if_neg not_ring_two_hand, if_neg not_pinky_two_hand]

lemma detect_two_hand (hd : Option String) :
    detect_gesture_with_handedness two_hand hd = some "two" := by
  unfold detect_gesture_with_handedness
  rw [if_neg not_is_pinch_two_hand, count_two_hand]

lemma not_is_pinch_three_hand : ¬ is_pinch three_hand 0.05 := by
  unfold is_pinch
  rw [if_neg (by simp [three_hand])]
  have h4 : lm three_hand 4 = ⟨0, 0.1, 0⟩ := rfl
  have h8 : lm three_hand 8 = ⟨0.5, 0, 0⟩ := rfl
  rw [h4, h8]
  unfold _dist
  push_neg
  exact Real.le_sqrt_of_sq_le (by norm_num)

lemma not_thumb_three_hand : ¬ thumb_extended three_hand := by
  unfold thumb_extended
  push_neg
  constructor
  · have h2 : lm three_hand 2 = ⟨0.1, 0, 0⟩ := rfl
    have h3 : lm three_hand 3 = ⟨0, 0, 0⟩ := rfl
    have h4 : lm three_hand 4 = ⟨0, 0.1, 0⟩ := rfl
    rw [h2, h3, h4, angle_between_perp (by norm_num)
      (by simp [Landmark.ext_iff]; norm_num) (by simp [Landmark.ext_iff]; norm_num)]
    norm_num [angle_threshold]
  · have h0 : lm three_hand 0 = ⟨0, 0, 0⟩ := rfl
    have h4 : lm three_hand 4 = ⟨0, 0.1, 0⟩ := rfl
    rw [h0, h4, _dist_eval (by norm_num : (0:ℝ) ≤ 0.1) (by norm_num)]
    norm_num

lemma index_three_hand : finger_extended three_hand 5 6 8 := by
  unfold finger_extended
  have h5 : lm three_hand 5 = ⟨0.5, 0.2, 0⟩ := rfl
  have h6 : lm three_hand 6 = ⟨0.5, 0.1, 0⟩ := rfl
  have h8 : lm three_hand 8 = ⟨0.5, 0, 0⟩ := rfl
  rw [h5, h6, h8]
  constructor
  · rw [angle_between_opposite (by norm_num) (by norm_num) (by norm_num)
      (by simp [Landmark.ext_iff]; norm_num)]
    norm_num [angle_threshold]
  · norm_num

lemma middle_three_hand : finger_extended three_hand 9 10 12 := by
  unfold finger_extended
  have h9 : lm three_hand 9 = ⟨0.6, 0.2, 0⟩ := rfl
  have h10 : lm three_hand 10 = ⟨0.6, 0.1, 0⟩ := rfl
  have h12 : lm three_hand 12 = ⟨0.6, 0, 0⟩ := rfl
  rw [h9, h10, h12]
  constructor
  · rw [angle_between_opposite (by norm_num) (by norm_num) (by norm_num)
      (by simp [Landmark.ext_iff]; norm_num)]
    norm_num [angle_threshold]
  · norm_num

lemma ring_three_hand : finger_extended three_hand 13 14 16 := by
  unfold finger_extended
  have h13 : lm three_hand 13 = ⟨0.7, 0.1, 0⟩ := rfl
  have h14 : lm three_hand 14 = ⟨0.7, 0, 0⟩ := rfl
  have h16 : lm three_hand 16 = ⟨0.7, 0, 0⟩ := rfl
  rw [h13, h14, h16]
  constructor
  · rw [angle_between_degenerate (Or.inr rfl)]
    norm_num [angle_threshold]
  · norm_num

lemma not_pinky_three_hand : ¬ finger_extended three_hand 17 18 20 := by
  unfold finger_extended
  have h17 : lm three_hand 17 = ⟨0.9, 0.1, 0⟩ := rfl
  have h18 : lm three_hand 18 = ⟨0.9, 0, 0⟩ := rfl
  have h20 : lm three_hand 20 = ⟨1, 0, 0⟩ := rfl
  rw [h17, h18, h20]
  intro h
  have := h.1
  rw [angle_between_perp (by norm_num)
    (by simp [Landmark.ext_iff]; norm_num) (by simp [Landmark.ext_iff]; norm_num)] at this
  norm_num [angle_threshold] at this

lemma count_three_hand (hd : Option String) :
    count_extended_fingers three_hand hd = 3 := by
  unfold count_extended_fingers
  rw [if_neg (by simp [three_hand])]
  rw [if_neg not_thumb_three_hand, if_pos index_three_hand, if_pos middle_three_hand,
    if_pos ring_three_hand, if_neg not_pinky_three_hand]

lemma detect_three_hand (hd : Option String) :
    detect_gesture_with_handedness three_hand hd = some "three" := by
  unfold detect_gesture_with_handedness
  rw [if_neg not_is_pinch_three_hand, count_three_hand]

/-! Evaluation of hand centers and of the direction tracker. -/

lemma center_pinch_hand : get_hand_center pinch_hand = (0, 0) := by
  unfold get_hand_center
  rw [if_neg (by simp [pinch_hand])]
  simp [pinch_hand, zl]

lemma center_two_hand : get_hand_center two_hand = (2/5, 3/70) := by
  unfold get_hand_center
  rw [if_neg (by simp [two_hand])]
  simp only [two_hand, List.map_cons, List.map_nil, List.sum_cons, List.sum_nil,
    List.length_cons, List.length_nil]
  norm_num

lemma center_three_hand : get_hand_center three_hand = (83/210, 3/70) := by
  unfold get_hand_center
  rw [if_neg (by simp [three_hand])]
  simp only [three_hand, List.map_cons, List.map_nil, List.sum_cons, List.sum_nil,
    List.length_cons, List.length_nil]
  norm_num

lemma center_right_hand : get_hand_center right_hand = (1/10, 0) := by
  unfold get_hand_center
  rw [if_neg (by simp [right_hand])]
  simp only [right_hand, List.map_cons, List.map_nil, List.sum_cons, List.sum_nil,
    List.length_cons, List.length_nil]
  norm_num

lemma center_down_hand : get_hand_center down_hand = (0, 1/10) := by
  unfold get_hand_center
  rw [if_neg (by simp [down_hand])]
  simp only [down_hand, List.map_cons, List.map_nil, List.sum_cons, List.sum_nil,
    List.length_cons, List.length_nil]
  norm_num

/-- First observation primes the tracker and reports no direction. -/
lemma dmd_fresh (lms : List Landmark) :
    detect_movement_direction none lms = (none, some (get_hand_center lms)) := rfl

/-- A frame whose center equals the stored center moves by zero, which is
below the movement threshold. -/
lemma dmd_same {p : ℝ × ℝ} {lms : List Landmark} (h : get_hand_center lms = p) :
    detect_movement_direction (some p) lms = (none, some p) := by
  unfold detect_movement_direction
  rw [h]
  simp only [sub_self, mul_zero, zero_add, add_zero, Real.sqrt_zero]
  rw [if_pos (by norm_num [movement_threshold])]

/-- Moving from the two_hand center to the three_hand center is below the
movement threshold. -/
lemma dmd_two_three :
    detect_movement_direction (some (2/5, 3/70)) three_hand =
      (none, some (83/210, 3/70)) := by
  unfold detect_movement_direction
  rw [center_three_hand]
  have hs : Real.sqrt (((83:ℝ)/210 - 2/5) * ((83:ℝ)/210 - 2/5) +
      ((3:ℝ)/70 - 3/70) * ((3:ℝ)/70 - 3/70)) = 1/210 :=
    sqrt_eval (by norm_num) (by norm_num)
  simp only []
  rw [hs, if_pos (by norm_num [movement_threshold])]

/-- Combined classification when the classifier yields a gesture and the
tracker yields no direction. -/
lemma dgwd_eval {prev : Option (ℝ × ℝ)} {lms : List Landmark} {hd : Option String}
    {g : String} {p2 : Option (ℝ × ℝ)}
    (hg : detect_gesture_with_handedness lms hd = some g)
    (hm : detect_movement_direction prev lms = (none, p2)) :
    detect_gesture_with_direction prev lms hd = (⟨some g, none, some g⟩, p2) := by
  unfold detect_gesture_with_direction
  rw [hg, hm]

/-- The classifier of the source never returns the absence value: the finger
count is at most 5 and each count maps to a gesture name, with pinch checked
first. -/
lemma count_le_five (lms : List Landmark) (hd : Option String) :
    count_extended_fingers lms hd ≤ 5 := by
  unfold count_extended_fingers
  split_ifs <;> norm_num

/-- Every classifier result is some gesture from the closed label set. -/
lemma detect_mem (lms : List Landmark) (hd : Option String) :
    ∃ g, detect_gesture_with_handedness lms hd = some g ∧
      g ∈ ["pinch", "fist", "one", "two", "three", "four", "five"] := by
  unfold detect_gesture_with_handedness
  split_ifs with hp
  · exact ⟨"pinch", rfl, by simp⟩
  · have h5 := count_le_five lms hd
    interval_cases h : count_extended_fingers lms hd <;>
      simp

/-- The classifier applied inside detect_gesture_with_direction always yields
a combined gesture of the form some string. -/
lemma combined_isSome (prev : Option (ℝ × ℝ)) (lms : List Landmark)
    (hd : Option String) :
    ∃ c, (detect_gesture_with_direction prev lms hd).1.combined = some c := by
  obtain ⟨g, hg, _⟩ := detect_mem lms hd
  simp only [detect_gesture_with_direction, hg]
  cases h : (detect_movement_direction prev lms).1 with
  | none => exact ⟨g, rfl⟩
  | some d => exact ⟨g ++ "_" ++ d, rfl⟩

/-- The gesture reported by detect_gesture_with_direction is never none. -/
lemma gesture_isSome (prev : Option (ℝ × ℝ)) (lms : List Landmark)
    (hd : Option String) :
    ∃ g, (detect_gesture_with_direction prev lms hd).1.gesture = some g := by
  obtain ⟨g, hg, _⟩ := detect_mem lms hd
  exact ⟨g, by simp only [detect_gesture_with_direction, hg]⟩

/-- Step of the dispatch loop on a hand frame that classifies with no
direction, when the rate gate is open and the gesture is fresh: the command
is emitted and both debounce slots update. -/
lemma demo_step_emit {st : LoopState} {lms : List Landmark} {hd : Option String}
    {g : String} {p2 : Option (ℝ × ℝ)} {now : ℝ}
    (h : detect_gesture_with_direction st.prev_center lms hd = (⟨some g, none, some g⟩, p2))
    (ht : 0.5 < now - st.last_sent) (hne : some g ≠ st.last_gesture) :
    demo_step st (some (lms, hd)) now = (⟨some g, now, p2⟩, some g) := by
  simp only [demo_step, h, Option.getD_some]
  rw [if_pos ⟨by simp, ht⟩, if_pos hne]

/-- Step of the dispatch loop on a hand frame when the rate gate is open but
the combined gesture equals the last emitted one: nothing is emitted and the
debounce slots are unchanged (only the tracker slot advances). -/
lemma demo_step_dup {st : LoopState} {lms : List Landmark} {hd : Option String}
    {g : String} {p2 : Option (ℝ × ℝ)} {now : ℝ}
    (h : detect_gesture_with_direction st.prev_center lms hd = (⟨some g, none, some g⟩, p2))
    (ht : 0.5 < now - st.last_sent) (heq : some g = st.last_gesture) :
    demo_step st (some (lms, hd)) now = (⟨st.last_gesture, st.last_sent, p2⟩, none) := by
  simp only [demo_step, h, Option.getD_some]
  rw [if_pos ⟨by simp, ht⟩, if_neg (by simpa using heq)]

/-- Step of the dispatch loop on a hand frame when the rate gate is closed:
nothing is emitted and the debounce slots are unchanged. -/
lemma demo_step_gated {st : LoopState} {lms : List Landmark} {hd : Option String}
    {g : String} {p2 : Option (ℝ × ℝ)} {now : ℝ}
    (h : detect_gesture_with_direction st.prev_center lms hd = (⟨some g, none, some g⟩, p2))
    (ht : ¬ 0.5 < now - st.last_sent) :
    demo_step st (some (lms, hd)) now = (⟨st.last_gesture, st.last_sent, p2⟩, none) := by
  simp only [demo_step, h]
  rw [if_neg (by intro hc; exact ht hc.2)]
  rw [if_neg (by simp)]

/-- Step of the dispatch loop on a no-hand frame: the tracker slot is reset
and the debounce slots are untouched; nothing is emitted. -/
lemma demo_step_nohand (st : LoopState) (now : ℝ) :
    demo_step st none now = (⟨st.last_gesture, st.last_sent, none⟩, none) := by
  simp only [demo_step]
  rw [if_neg (by intro hc; exact hc.1 rfl)]
  simp

/-! Concrete runs of the dispatch loop. -/

lemma dgwd_two_fresh :
    detect_gesture_with_direction none two_hand none =
      (⟨some "two", none, some "two"⟩, some (2/5, 3/70)) :=
  dgwd_eval (detect_two_hand none) (by rw [dmd_fresh, center_two_hand])

lemma dgwd_two_again :
    detect_gesture_with_direction (some (2/5, 3/70)) two_hand none =
      (⟨some "two", none, some "two"⟩, some (2/5, 3/70)) :=
  dgwd_eval (detect_two_hand none) (dmd_same center_two_hand)

lemma dgwd_three_after_two :
    detect_gesture_with_direction (some (2/5, 3/70)) three_hand none =
      (⟨some "three", none, some "three"⟩, some (83/210, 3/70)) :=
  dgwd_eval (detect_three_hand none) dmd_two_three

lemma dgwd_pinch_fresh :
    detect_gesture_with_direction none pinch_hand none =
      (⟨some "pinch", none, some "pinch"⟩, some (0, 0)) :=
  dgwd_eval (detect_pinch_hand none) (by rw [dmd_fresh, center_pinch_hand])

/-- Three identical "two" frames within 0.1 s of each other, from the fresh
state, with the first frame past the initial gate: exactly one emission. -/
lemma run_two_two_two (t1 t2 t3 : ℝ) (h1 : 0.5 < t1) (h12 : t1 ≤ t2)
    (h23 : t2 ≤ t3) (h3 : t3 ≤ t1 + 0.1) :
    (demo_run init_state
      [(some (two_hand, none), t1), (some (two_hand, none), t2),
       (some (two_hand, none), t3)]).2 = ["two"] := by
  have hd1 : detect_gesture_with_direction init_state.prev_center two_hand none =
      (⟨some "two", none, some "two"⟩, some (2/5, 3/70)) := dgwd_two_fresh
  have hs1 : demo_step init_state (some (two_hand, none)) t1 =
      (⟨some "two", t1, some (2/5, 3/70)⟩, some "two") :=
    demo_step_emit hd1
      (show (0.5:ℝ) < t1 - init_state.last_sent by
        simp only [init_state]; linarith)
      (by simp [init_state])
  have hd2 : detect_gesture_with_direction
      (LoopState.mk (some "two") t1 (some (2/5, 3/70))).prev_center two_hand none =
      (⟨some "two", none, some "two"⟩, some (2/5, 3/70)) := dgwd_two_again
  have hs2 : demo_step ⟨some "two", t1, some (2/5, 3/70)⟩ (some (two_hand, none)) t2 =
      (⟨some "two", t1, some (2/5, 3/70)⟩, none) :=
    demo_step_gated hd2
      (show ¬ (0.5:ℝ) < t2 - (LoopState.mk (some "two") t1 (some (2/5, 3/70))).last_sent by
        simp only []; intro hc; linarith)
  have hs3 : demo_step ⟨some "two", t1, some (2/5, 3/70)⟩ (some (two_hand, none)) t3 =
      (⟨some "two", t1, some (2/5, 3/70)⟩, none) :=
    demo_step_gated hd2
      (show ¬ (0.5:ℝ) < t3 - (LoopState.mk (some "two") t1 (some (2/5, 3/70))).last_sent by
        simp only []; intro hc; linarith)
  simp only [demo_run, hs1, hs2, hs3]
  rfl

/-- A "two" frame followed within 0.1 s by a "three" frame, from the fresh
state: only the first emits, the distinct transition is still gated. -/
lemma run_two_three (t1 t2 : ℝ) (h1 : 0.5 < t1) (h12 : t1 ≤ t2)
    (h2 : t2 ≤ t1 + 0.1) :
    (demo_run init_state
      [(some (two_hand, none), t1), (some (three_hand, none), t2)]).2 = ["two"] := by
  have hd1 : detect_gesture_with_direction init_state.prev_center two_hand none =
      (⟨some "two", none, some "two"⟩, some (2/5, 3/70)) := dgwd_two_fresh
  have hs1 : demo_step init_state (some (two_hand, none)) t1 =
      (⟨some "two", t1, some (2/5, 3/70)⟩, some "two") :=
    demo_step_emit hd1
      (show (0.5:ℝ) < t1 - init_state.last_sent by
        simp only [init_state]; linarith)
      (by simp [init_state])
  have hd2 : detect_gesture_with_direction
      (LoopState.mk (some "two") t1 (some (2/5, 3/70))).prev_center three_hand none =
      (⟨some "three", none, some "three"⟩, some (83/210, 3/70)) := dgwd_three_after_two
  have hs2 : demo_step ⟨some "two", t1, some (2/5, 3/70)⟩ (some (three_hand, none)) t2 =
      (⟨some "two", t1, some (83/210, 3/70)⟩, none) :=
    demo_step_gated hd2
      (show ¬ (0.5:ℝ) < t2 - (LoopState.mk (some "two") t1 (some (2/5, 3/70))).last_sent by
        simp only []; intro hc; linarith)
  simp only [demo_run, hs1, hs2]
  rfl

/-- A "pinch" frame, then a no-hand frame, then the same "pinch" frame with
the rate gate wide open: the reappearing gesture is not re-emitted. -/
lemma run_pinch_gap_pinch :
    (demo_run init_state
      [(some (pinch_hand, none), 1), (none, 2), (some (pinch_hand, none), 3)]).2 =
      ["pinch"] := by
  have hd1 : detect_gesture_with_direction init_state.prev_center pinch_hand none =
      (⟨some "pinch", none, some "pinch"⟩, some (0, 0)) := dgwd_pinch_fresh
  have hs1 : demo_step init_state (some (pinch_hand, none)) 1 =
      (⟨some "pinch", 1, some (0, 0)⟩, some "pinch") :=
    demo_step_emit hd1
      (show (0.5:ℝ) < 1 - init_state.last_sent by norm_num [init_state])
      (by simp [init_state])
  have hs2 : demo_step ⟨some "pinch", 1, some (0, 0)⟩ none 2 =
      (⟨some "pinch", 1, none⟩, none) := demo_step_nohand _ _
  have hd3 : detect_gesture_with_direction
      (LoopState.mk (some "pinch") 1 none).prev_center pinch_hand none =
      (⟨some "pinch", none, some "pinch"⟩, some (0, 0)) := dgwd_pinch_fresh
  have hs3 : demo_step ⟨some "pinch", 1, none⟩ (some (pinch_hand, none)) 3 =
      (⟨some "pinch", 1, some (0, 0)⟩, none) :=
    demo_step_dup hd3
      (show (0.5:ℝ) < 3 - (LoopState.mk (some "pinch") 1 none).last_sent by norm_num)
      rfl
  simp only [demo_run, hs1, hs2, hs3]
  rfl

/-! Finger-count structure lemmas. -/

/-- For a full 21-landmark hand the count is the sum of the five per-finger
indicators. -/
lemma count_eq_sum (lms : List Landmark) (hd : Option String)
    (hl : lms.length = 21) :
    count_extended_fingers lms hd =
      ∑ f : Fin 5, if code_extended lms f then 1 else 0 := by
  have hguard : ¬ (lms = [] ∨ lms.length < 21) := by
    rintro (rfl | hlt)
    · simp at hl
    · omega
  unfold count_extended_fingers
  rw [if_neg hguard, Fin.sum_univ_five]
  rfl

/-- The per-finger test of the code coincides with the extension rule worded
by the specification. -/
lemma code_eq_spec (lms : List Landmark) (f : Fin 5) :
    code_extended lms f ↔ spec_extended lms f := by
  fin_cases f <;>
    simp [code_extended, spec_extended, thumb_extended, finger_extended,
      angle_threshold]

/-- The specification count is the same sum of indicators. -/
lemma spec_count_eq_sum (lms : List Landmark) :
    spec_count lms = ∑ f : Fin 5, if spec_extended lms f then 1 else 0 := by
  unfold spec_count
  rw [Finset.card_filter]

/-- The landmark blocks of distinct fingers are disjoint. -/
lemma finger_indices_disjoint :
    ∀ j k : Fin 5, j ≠ k → ∀ i ∈ finger_indices j, i ∉ finger_indices k := by
  decide

/-- The wrist index belongs to no finger block. -/
lemma zero_not_finger : ∀ k : Fin 5, 0 ∉ finger_indices k := by
  decide

/-- The per-finger test of finger f reads only the wrist and the landmarks of
finger f. -/
lemma code_extended_congr {h h2 : List Landmark} (f : Fin 5)
    (hagree : ∀ i : ℕ, i = 0 ∨ i ∈ finger_indices f → lm h2 i = lm h i) :
    (code_extended h2 f ↔ code_extended h f) := by
  fin_cases f
  · simp only [code_extended, thumb_extended]
    rw [hagree 0 (Or.inl rfl), hagree 2 (Or.inr (by simp [finger_indices])),
      hagree 3 (Or.inr (by simp [finger_indices])),
      hagree 4 (Or.inr (by simp [finger_indices]))]
  · simp only [code_extended, finger_extended]
    rw [hagree 5 (Or.inr (by simp [finger_indices])),
      hagree 6 (Or.inr (by simp [finger_indices])),
      hagree 8 (Or.inr (by simp [finger_indices]))]
  · simp only [code_extended, finger_extended]
    rw [hagree 9 (Or.inr (by simp [finger_indices])),
      hagree 10 (Or.inr (by simp [finger_indices])),
      hagree 12 (Or.inr (by simp [finger_indices]))]
  · simp only [code_extended, finger_extended]
    rw [hagree 13 (Or.inr (by simp [finger_indices])),
      hagree 14 (Or.inr (by simp [finger_indices])),
      hagree 16 (Or.inr (by simp [finger_indices]))]
  · simp only [code_extended, finger_extended]
    rw [hagree 17 (Or.inr (by simp [finger_indices])),
      hagree 18 (Or.inr (by simp [finger_indices])),
      hagree 20 (Or.inr (by simp [finger_indices]))]

/-- The thumb of the all-zero hand passes the test through the degenerate
angle policy. -/
lemma thumb_pinch_hand : thumb_extended pinch_hand := by
  unfold thumb_extended
  left
  have h2 : lm pinch_hand 2 = zl := rfl
  have h3 : lm pinch_hand 3 = zl := rfl
  have h4 : lm pinch_hand 4 = zl := rfl
  rw [h2, h3, h4, angle_between_degenerate (Or.inl rfl)]
  norm_num [angle_threshold]

/-- The empty landmark list classifies as "fist": the pinch guard rejects it
and the count guard maps it to zero, which the classifier names "fist". -/
lemma detect_nil : detect_gesture [] = some "fist" := by
  unfold detect_gesture detect_gesture_with_handedness
  rw [if_neg (by simp [is_pinch])]
  have h0 : count_extended_fingers [] none = 0 := by
    simp [count_extended_fingers]
  rw [h0]

/-- A hand frame whose combined gesture equals the last emitted one never
emits and leaves both debounce slots unchanged. -/
lemma demo_step_no_change {st : LoopState} {lms : List Landmark}
    {hd : Option String} {now : ℝ}
    (hsame : (detect_gesture_with_direction st.prev_center lms hd).1.combined =
      st.last_gesture) :
    (demo_step st (some (lms, hd)) now).2 = none ∧
    (demo_step st (some (lms, hd)) now).1.last_gesture = st.last_gesture ∧
    (demo_step st (some (lms, hd)) now).1.last_sent = st.last_sent := by
  obtain ⟨g, hg⟩ := gesture_isSome st.prev_center lms hd
  obtain ⟨cb, hcb⟩ := combined_isSome st.prev_center lms hd
  simp only [demo_step]
  by_cases hti : 0.5 < now - st.last_sent
  · rw [if_pos ⟨by simp [hg], hti⟩]
    have hcur : (detect_gesture_with_direction st.prev_center lms hd).1.combined.getD
        ((detect_gesture_with_direction st.prev_center lms hd).1.gesture.getD "") = cb := by
      rw [hcb]
      rfl
    rw [if_neg (by rw [hcur, ← hsame, hcb]; simp)]
    exact ⟨rfl, rfl, rfl⟩
  · rw [if_neg (fun hc => hti hc.2), if_neg (by simp [hg])]
    exact ⟨rfl, rfl, rfl⟩

/-- Emission condition of the dispatch loop: a command goes out exactly when
the combined gesture exists, the rate gate is strictly open, and the combined
gesture differs from the last emitted one. -/
lemma demo_step_emit_iff (st : LoopState)
    (frame : Option (List Landmark × Option String)) (now : ℝ) :
    (demo_step st frame now).2 ≠ none ↔
      (frame_combined st frame ≠ none ∧ 0.5 < now - st.last_sent ∧
        frame_combined st frame ≠ st.last_gesture) := by
  cases frame with
  | none =>
    rw [demo_step_nohand]
    simp [frame_combined]
  | some fr =>
    obtain ⟨lms, hd⟩ := fr
    obtain ⟨g, hg⟩ := gesture_isSome st.prev_center lms hd
    obtain ⟨cb, hcb⟩ := combined_isSome st.prev_center lms hd
    have hfc : frame_combined st (some (lms, hd)) = some cb := by
      simp only [frame_combined]
      exact hcb
    rw [hfc]
    simp only [demo_step]
    by_cases hti : 0.5 < now - st.last_sent
    · rw [if_pos ⟨by simp [hg], hti⟩]
      have hcur : (detect_gesture_with_direction st.prev_center lms hd).1.combined.getD
          ((detect_gesture_with_direction st.prev_center lms hd).1.gesture.getD "") = cb := by
        rw [hcb]
        rfl
      by_cases hne : some cb = st.last_gesture
      · rw [if_neg (by rw [hcur]; simpa using hne)]
        simp [hne, hti]
      · rw [if_pos (by rw [hcur]; simpa using hne)]
        simp [hne, hti]
    · rw [if_neg (fun hc => hti hc.2), if_neg (by simp [hg])]
      simp [hti]

/-- On every emission, the dispatch loop stores the combined gesture in
last_gesture and the frame timestamp in last_sent. -/
lemma demo_step_update (st : LoopState)
    (frame : Option (List Landmark × Option String)) (now : ℝ)
    (h : (demo_step st frame now).2 ≠ none) :
    (demo_step st frame now).1.last_gesture = frame_combined st frame ∧
    (demo_step st frame now).1.last_sent = now := by
  cases frame with
  | none =>
    rw [demo_step_nohand] at h
    simp at h
  | some fr =>
    obtain ⟨lms, hd⟩ := fr
    obtain ⟨g, hg⟩ := gesture_isSome st.prev_center lms hd
    obtain ⟨cb, hcb⟩ := combined_isSome st.prev_center lms hd
    have hfc : frame_combined st (some (lms, hd)) = some cb := by
      simp only [frame_combined]
      exact hcb
    rw [hfc]
    simp only [demo_step] at h ⊢
    by_cases hti : 0.5 < now - st.last_sent
    · rw [if_pos ⟨by simp [hg], hti⟩] at h ⊢
      have hcur : (detect_gesture_with_direction st.prev_center lms hd).1.combined.getD
          ((detect_gesture_with_direction st.prev_center lms hd).1.gesture.getD "") = cb := by
        rw [hcb]
        rfl
      by_cases hne : some cb = st.last_gesture
      · rw [if_neg (by rw [hcur]; simpa using hne)] at h
        simp at h
      · rw [if_pos (by rw [hcur]; simpa using hne)]
        exact ⟨by rw [hcur], rfl⟩
    · rw [if_neg (fun hc => hti hc.2), if_neg (by simp [hg])] at h
      simp at h

/-! Claim theorems. -/

/-- C1 (counterexample): the claim that every predicate returns its negative
default and the classifier returns none on every list shorter than 21 fails:
a nine-entry list already satisfies is_pinch, and the empty list classifies
as "fist", not as the absence value. -/
theorem C1_counterexample :
    is_pinch [zl, zl, zl, zl, zl, zl, zl, zl, zl] 0.05 ∧
    detect_gesture [] = some "fist" := by
  constructor
  · unfold is_pinch
    rw [if_neg (by simp)]
    have h4 : lm [zl, zl, zl, zl, zl, zl, zl, zl, zl] 4 = zl := rfl
    have h8 : lm [zl, zl, zl, zl, zl, zl, zl, zl, zl] 8 = zl := rfl
    rw [h4, h8, _dist_eval le_rfl (by norm_num [zl])]
    norm_num
  · exact detect_nil

/-- C1 (amended): on a landmark list with fewer than 21 entries, is_fist,
is_open_hand and is_pointing_index are false and the finger count is zero;
is_pinch is guaranteed false only below 9 entries; and the classifier returns
"pinch" or "fist" (never the absence value). -/
theorem C1_undersized_defaults (lms : List Landmark) (hd : Option String)
    (hlen : lms.length < 21) :
    ¬ is_fist lms 0.08 ∧ ¬ is_open_hand lms 0.12 ∧ ¬ is_pointing_index lms 0.06 ∧
    count_extended_fingers lms hd = 0 ∧
    (lms.length < 9 → ¬ is_pinch lms 0.05) ∧
    (detect_gesture_with_handedness lms hd = some "pinch" ∨
      detect_gesture_with_handedness lms hd = some "fist") := by
  have hg : lms = [] ∨ lms.length < 21 := Or.inr hlen
  refine ⟨?_, ?_, ?_, ?_, ?_, ?_⟩
  · unfold is_fist
    rw [if_pos hg]
    exact not_false
  · unfold is_open_hand
    rw [if_pos hg]
    exact not_false
  · unfold is_pointing_index
    rw [if_pos hg]
    exact not_false
  · unfold count_extended_fingers
    rw [if_pos hg]
  · intro h9
    unfold is_pinch
    rw [if_pos (Or.inr h9)]
    exact not_false
  · unfold detect_gesture_with_handedness
    by_cases hp : is_pinch lms 0.05
    · left
      rw [if_pos hp]
    · right
      rw [if_neg hp]
      have h0 : count_extended_fingers lms hd = 0 := by
        unfold count_extended_fingers
        rw [if_pos hg]
      rw [h0]

/-- C1 witness: the amended statement instantiated at the empty list. -/
theorem C1_witness :
    ([] : List Landmark).length < 21 ∧
    (¬ is_fist [] 0.08 ∧ ¬ is_open_hand [] 0.12 ∧ ¬ is_pointing_index [] 0.06 ∧
      count_extended_fingers [] none = 0 ∧
      (([] : List Landmark).length < 9 → ¬ is_pinch [] 0.05) ∧
      (detect_gesture_with_handedness [] none = some "pinch" ∨
        detect_gesture_with_handedness [] none = some "fist")) :=
  ⟨by norm_num, C1_undersized_defaults [] none (by norm_num)⟩

/-- C2 (counterexample): after emitting "pinch", a no-hand frame, and the
same pinch hand again with the rate gate wide open, the gesture is NOT
re-emitted (the claim predicted a second emission). -/
theorem C2_counterexample :
    (demo_run init_state
      [(some (pinch_hand, none), 1), (none, 2), (some (pinch_hand, none), 3)]).2 =
      ["pinch"] := run_pinch_gap_pinch

/-- C2 (amended): a no-hand frame resets the tracker slot, leaves both
debounce slots unchanged and emits nothing; and because last_gesture is not
cleared, a later frame whose combined gesture again equals last_gesture is
suppressed, not re-emitted. -/
theorem C2_none_keeps_last_gesture (st : LoopState) (now : ℝ)
    (lms : List Landmark) (hd : Option String)
    (hsame : (detect_gesture_with_direction st.prev_center lms hd).1.combined =
      st.last_gesture) :
    demo_step st none now = (⟨st.last_gesture, st.last_sent, none⟩, none) ∧
    (demo_step st (some (lms, hd)) now).2 = none ∧
    (demo_step st (some (lms, hd)) now).1.last_gesture = st.last_gesture ∧
    (demo_step st (some (lms, hd)) now).1.last_sent = st.last_sent :=
  ⟨demo_step_nohand st now, (demo_step_no_change hsame).1,
    (demo_step_no_change hsame).2.1, (demo_step_no_change hsame).2.2⟩

/-- C2 witness: the amended statement instantiated at a state that has
already emitted "pinch" and sees the pinch hand again, two seconds later. -/
theorem C2_witness :
    (detect_gesture_with_direction
        (LoopState.mk (some "pinch") 1 none).prev_center pinch_hand none).1.combined =
      (LoopState.mk (some "pinch") 1 none).last_gesture ∧
    (demo_step ⟨some "pinch", 1, none⟩ (some (pinch_hand, none)) 3).2 = none := by
  have hsame : (detect_gesture_with_direction
      (LoopState.mk (some "pinch") 1 none).prev_center pinch_hand none).1.combined =
      (LoopState.mk (some "pinch") 1 none).last_gesture := by
    rw [show (LoopState.mk (some "pinch") 1 none).prev_center = none from rfl,
      dgwd_pinch_fresh]
  exact ⟨hsame, (C2_none_keeps_last_gesture ⟨some "pinch", 1, none⟩ 3 pinch_hand none
    hsame).2.1⟩

/-- C3 (counterexample): with the elapsed time exactly equal to the minimum
interval (0.5 s), a fresh non-none gesture that differs from the last emitted
value is NOT emitted: the gate of the source is strict, not "at least". -/
theorem C3_counterexample :
    (0.5:ℝ) - init_state.last_sent = 0.5 ∧
    frame_combined init_state (some (pinch_hand, none)) = some "pinch" ∧
    init_state.last_gesture = none ∧
    (demo_step init_state (some (pinch_hand, none)) 0.5).2 = none := by
  refine ⟨by norm_num [init_state], ?_, rfl, ?_⟩
  · simp only [frame_combined]
    rw [show init_state.prev_center = none from rfl, dgwd_pinch_fresh]
  · have hd1 : detect_gesture_with_direction init_state.prev_center pinch_hand none =
        (⟨some "pinch", none, some "pinch"⟩, some (0, 0)) := dgwd_pinch_fresh
    rw [demo_step_gated hd1
      (show ¬ (0.5:ℝ) < 0.5 - init_state.last_sent by norm_num [init_state])]

/-- C3 (amended): the dispatch loop emits exactly when the combined gesture
is non-none, differs from the last emitted value (none initially), and the
time since the last emission STRICTLY exceeds 0.5 s; on emission both
debounce slots update; and three "two" frames within 0.1 s of each other from
the fresh state, the first past the initial gate, yield exactly one
emission. -/
theorem C3_debounce_policy :
    (∀ (st : LoopState) (frame : Option (List Landmark × Option String)) (now : ℝ),
      (demo_step st frame now).2 ≠ none ↔
        (frame_combined st frame ≠ none ∧ 0.5 < now - st.last_sent ∧
          frame_combined st frame ≠ st.last_gesture)) ∧
    (∀ (st : LoopState) (frame : Option (List Landmark × Option String)) (now : ℝ),
      (demo_step st frame now).2 ≠ none →
        (demo_step st frame now).1.last_gesture = frame_combined st frame ∧
        (demo_step st frame now).1.last_sent = now) ∧
    (∀ t1 t2 t3 : ℝ, 0.5 < t1 → t1 ≤ t2 → t2 ≤ t3 → t3 ≤ t1 + 0.1 →
      (demo_run init_state
        [(some (two_hand, none), t1), (some (two_hand, none), t2),
         (some (two_hand, none), t3)]).2 = ["two"]) :=
  ⟨demo_step_emit_iff, demo_step_update,
    fun t1 t2 t3 h1 h12 h23 h3 => run_two_two_two t1 t2 t3 h1 h12 h23 (by linarith)⟩

/-- C3 witness: the amended statement instantiated at frames at 1, 1.05 and
1.1 seconds. -/
theorem C3_witness :
    ((0.5:ℝ) < 1 ∧ (1:ℝ) ≤ 1.05 ∧ (1.05:ℝ) ≤ 1.1 ∧ (1.1:ℝ) ≤ 1 + 0.1) ∧
    (demo_run init_state
      [(some (two_hand, none), 1), (some (two_hand, none), 1.05),
       (some (two_hand, none), 1.1)]).2 = ["two"] :=
  ⟨⟨by norm_num, by norm_num, by norm_num, by norm_num⟩,
    C3_debounce_policy.2.2 1 1.05 1.1 (by norm_num) (by norm_num) (by norm_num)
      (by norm_num)⟩

/-- C4 (counterexample): a "two" frame followed 0.05 s later by a "three"
frame from the fresh state emits only once: the distinct transition does not
bypass the interval gate, so the claim that both frames emit fails. -/
theorem C4_counterexample :
    (demo_run init_state
      [(some (two_hand, none), 1), (some (three_hand, none), 1.05)]).2 = ["two"] :=
  run_two_three 1 1.05 (by norm_num) (by norm_num) (by norm_num)

/-- C4 (amended): for the gesture sequence "two" then "three" within 0.1 s
from the fresh state (first frame past the initial gate), only the first
frame emits: the interval gate applies uniformly, also to transitions to a
distinct value. -/
theorem C4_distinct_transition_gated (t1 t2 : ℝ) (h1 : 0.5 < t1) (h12 : t1 ≤ t2)
    (h2 : t2 ≤ t1 + 0.1) :
    (demo_run init_state
      [(some (two_hand, none), t1), (some (three_hand, none), t2)]).2 = ["two"] :=
  run_two_three t1 t2 h1 h12 h2

/-- C4 witness: the amended statement instantiated at frames at 2 and 2.05
seconds. -/
theorem C4_witness :
    ((0.5:ℝ) < 2 ∧ (2:ℝ) ≤ 2.05 ∧ (2.05:ℝ) ≤ 2 + 0.1) ∧
    (demo_run init_state
      [(some (two_hand, none), 2), (some (three_hand, none), 2.05)]).2 = ["two"] :=
  ⟨⟨by norm_num, by norm_num, by norm_num⟩,
    C4_distinct_transition_gated 2 2.05 (by norm_num) (by norm_num) (by norm_num)⟩

/-- C5: on any full 21-landmark hand whose planar thumb-tip to index-tip
distance is below 0.05, the classifier returns "pinch", whatever the other
landmarks are. -/
theorem C5_pinch_preempts (lms : List Landmark) (hd : Option String)
    (hlen : lms.length = 21)
    (hpinch : _dist (lm lms 4) (lm lms 8) < 0.05) :
    detect_gesture_with_handedness lms hd = some "pinch" := by
  have hguard : ¬ (lms = [] ∨ lms.length < 9) := by
    rintro (rfl | hlt)
    · simp at hlen
    · omega
  unfold detect_gesture_with_handedness
  rw [if_pos]
  unfold is_pinch
  rw [if_neg hguard]
  exact hpinch

/-- C5 witness: the all-zero hand has coincident thumb and index tips. -/
theorem C5_witness :
    pinch_hand.length = 21 ∧
    _dist (lm pinch_hand 4) (lm pinch_hand 8) < 0.05 ∧
    detect_gesture_with_handedness pinch_hand none = some "pinch" := by
  have hdist : _dist (lm pinch_hand 4) (lm pinch_hand 8) < 0.05 := by
    have h4 : lm pinch_hand 4 = zl := rfl
    have h8 : lm pinch_hand 8 = zl := rfl
    rw [h4, h8, _dist_eval le_rfl (by norm_num [zl])]
    norm_num
  exact ⟨rfl, hdist, C5_pinch_preempts pinch_hand none rfl hdist⟩

/-- C6: on a full 21-landmark hand, count_extended_fingers equals the number
of fingers satisfying the per-finger rule worded by the specification
(non-thumb: PIP angle above 140 degrees and tip y below MCP y plus 0.05;
thumb: IP angle above 140 degrees or planar wrist-to-thumb-tip distance above
0.15), and the result is at most 5. -/
theorem C6_count_matches_spec (lms : List Landmark) (hd : Option String)
    (hl : lms.length = 21) :
    count_extended_fingers lms hd = spec_count lms ∧
    count_extended_fingers lms hd ≤ 5 := by
  refine ⟨?_, count_le_five lms hd⟩
  rw [count_eq_sum lms hd hl, spec_count_eq_sum]
  exact Finset.sum_congr rfl fun f _ => by
    rw [if_congr (code_eq_spec lms f) rfl rfl]

/-- C6 witness: the statement instantiated at the all-zero hand. -/
theorem C6_witness :
    pinch_hand.length = 21 ∧
    (count_extended_fingers pinch_hand none = spec_count pinch_hand ∧
      count_extended_fingers pinch_hand none ≤ 5) :=
  ⟨rfl, C6_count_matches_spec pinch_hand none rfl⟩

/-- C7: with a stored previous center and displacement at or above the
movement threshold, the direction is picked by the dominant axis, with ties
resolving to the vertical branch: right when the horizontal dominates and dx
is positive, left when it dominates and dx is nonpositive, down when the
vertical branch is taken and dy is positive, up otherwise. -/
theorem C7_dominant_axis (p : ℝ × ℝ) (lms : List Landmark) (dx dy : ℝ)
    (hdx : dx = (get_hand_center lms).1 - p.1)
    (hdy : dy = (get_hand_center lms).2 - p.2)
    (hmov : movement_threshold ≤ Real.sqrt (dx * dx + dy * dy)) :
    ((|dx| > |dy| ∧ dx > 0) →
      (detect_movement_direction (some p) lms).1 = some "right") ∧
    ((|dx| > |dy| ∧ dx ≤ 0) →
      (detect_movement_direction (some p) lms).1 = some "left") ∧
    ((¬ |dx| > |dy|) ∧ dy > 0 →
      (detect_movement_direction (some p) lms).1 = some "down") ∧
    ((¬ |dx| > |dy|) ∧ dy ≤ 0 →
      (detect_movement_direction (some p) lms).1 = some "up") := by
  subst hdx
  subst hdy
  simp only [detect_movement_direction]
  rw [if_neg (not_lt.mpr hmov)]
  refine ⟨?_, ?_, ?_, ?_⟩
  · rintro ⟨ha, hb⟩
    rw [if_pos ha, if_pos hb]
  · rintro ⟨ha, hb⟩
    rw [if_pos ha, if_neg (not_lt.mpr hb)]
  · rintro ⟨ha, hb⟩
    rw [if_neg ha, if_pos hb]
  · rintro ⟨ha, hb⟩
    rw [if_neg ha, if_neg (not_lt.mpr hb)]

/-- C7 witness: a pure rightward shift of 0.1 yields "right" and a pure
downward shift of 0.1 yields "down". -/
theorem C7_witness :
    movement_threshold ≤ Real.sqrt ((1/10 : ℝ) * (1/10) + 0 * 0) ∧
    (detect_movement_direction (some ((0:ℝ), (0:ℝ))) right_hand).1 = some "right" ∧
    (detect_movement_direction (some ((0:ℝ), (0:ℝ))) down_hand).1 = some "down" := by
  have hs : Real.sqrt ((1/10 : ℝ) * (1/10) + 0 * 0) = 1/10 :=
    sqrt_eval (by norm_num) (by norm_num)
  have hmovr : movement_threshold ≤
      Real.sqrt (((get_hand_center right_hand).1 - (0:ℝ)) *
        ((get_hand_center right_hand).1 - (0:ℝ)) +
        ((get_hand_center right_hand).2 - (0:ℝ)) *
        ((get_hand_center right_hand).2 - (0:ℝ))) := by
    rw [center_right_hand]
    simp only []
    rw [show ((1:ℝ)/10 - 0) * ((1:ℝ)/10 - 0) + ((0:ℝ) - 0) * ((0:ℝ) - 0) =
      (1/10 : ℝ) * (1/10) + 0 * 0 by ring, hs]
    norm_num [movement_threshold]
  have hmovd : movement_threshold ≤
      Real.sqrt (((get_hand_center down_hand).1 - (0:ℝ)) *
        ((get_hand_center down_hand).1 - (0:ℝ)) +
        ((get_hand_center down_hand).2 - (0:ℝ)) *
        ((get_hand_center down_hand).2 - (0:ℝ))) := by
    rw [center_down_hand]
    simp only []
    rw [show ((0:ℝ) - 0) * ((0:ℝ) - 0) + ((1:ℝ)/10 - 0) * ((1:ℝ)/10 - 0) =
      (1/10 : ℝ) * (1/10) + 0 * 0 by ring]
    rw [show ((1:ℝ)/10) * ((1:ℝ)/10) + (0:ℝ) * 0 = (1/10 : ℝ) * (1/10) + 0 * 0 by ring] at hs
    rw [hs]
    norm_num [movement_threshold]
  refine ⟨by rw [hs]; norm_num [movement_threshold], ?_, ?_⟩
  · exact (C7_dominant_axis ((0:ℝ), (0:ℝ)) right_hand
      ((get_hand_center right_hand).1 - 0) ((get_hand_center right_hand).2 - 0)
      rfl rfl hmovr).1
      ⟨by rw [center_right_hand]; norm_num, by rw [center_right_hand]; norm_num⟩
  · exact (C7_dominant_axis ((0:ℝ), (0:ℝ)) down_hand
      ((get_hand_center down_hand).1 - 0) ((get_hand_center down_hand).2 - 0)
      rfl rfl hmovd).2.2.1
      ⟨by rw [center_down_hand]; norm_num, by rw [center_down_hand]; norm_num⟩

/-- C8: the angle helper is total: when either vector is zero it returns
exactly 180 degrees, and otherwise it returns a value in the range 0 to 180
degrees whose cosine (after conversion back to radians) is the normalized dot
product of the two 3D vectors, i.e. the genuine angle at the vertex in
degrees. -/
theorem C8_angle_policy (a b c : Landmark) :
    ((a = b ∨ c = b) → _angle_between a b c = 180) ∧
    (a ≠ b → c ≠ b →
      0 ≤ _angle_between a b c ∧ _angle_between a b c ≤ 180 ∧
      Real.cos (_angle_between a b c * Real.pi / 180) =
        ((a.x - b.x) * (c.x - b.x) + (a.y - b.y) * (c.y - b.y) +
            (a.z - b.z) * (c.z - b.z)) /
          (Real.sqrt ((a.x - b.x) ^ 2 + (a.y - b.y) ^ 2 + (a.z - b.z) ^ 2) *
            Real.sqrt ((c.x - b.x) ^ 2 + (c.y - b.y) ^ 2 + (c.z - b.z) ^ 2))) := by
  constructor
  · exact angle_between_degenerate
  · intro hab hcb
    have hS1 : 0 < (a.x - b.x) ^ 2 + (a.y - b.y) ^ 2 + (a.z - b.z) ^ 2 := normsq_pos hab
    have hS2 : 0 < (c.x - b.x) ^ 2 + (c.y - b.y) ^ 2 + (c.z - b.z) ^ 2 := normsq_pos hcb
    have hn1 : 0 < Real.sqrt ((a.x - b.x) ^ 2 + (a.y - b.y) ^ 2 + (a.z - b.z) ^ 2) :=
      Real.sqrt_pos.mpr hS1
    have hn2 : 0 < Real.sqrt ((c.x - b.x) ^ 2 + (c.y - b.y) ^ 2 + (c.z - b.z) ^ 2) :=
      Real.sqrt_pos.mpr hS2
    have habs : |(a.x - b.x) * (c.x - b.x) + (a.y - b.y) * (c.y - b.y) +
        (a.z - b.z) * (c.z - b.z)| ≤
        Real.sqrt ((a.x - b.x) ^ 2 + (a.y - b.y) ^ 2 + (a.z - b.z) ^ 2) *
          Real.sqrt ((c.x - b.x) ^ 2 + (c.y - b.y) ^ 2 + (c.z - b.z) ^ 2) := by
      rw [← Real.sqrt_sq_eq_abs, ← Real.sqrt_mul (le_of_lt hS1)]
      exact Real.sqrt_le_sqrt (dot_sq_le _ _ _ _ _ _)
    have hq : |((a.x - b.x) * (c.x - b.x) + (a.y - b.y) * (c.y - b.y) +
        (a.z - b.z) * (c.z - b.z)) /
        (Real.sqrt ((a.x - b.x) ^ 2 + (a.y - b.y) ^ 2 + (a.z - b.z) ^ 2) *
          Real.sqrt ((c.x - b.x) ^ 2 + (c.y - b.y) ^ 2 + (c.z - b.z) ^ 2))| ≤ 1 := by
      rw [abs_div, abs_of_pos (mul_pos hn1 hn2)]
      exact div_le_one_of_le₀ habs (le_of_lt (mul_pos hn1 hn2))
    obtain ⟨hq1, hq2⟩ := abs_le.mp hq
    rw [angle_between_eq hab hcb]
    refine ⟨?_, ?_, ?_⟩
    · exact mul_nonneg (Real.arccos_nonneg _)
        (by positivity)
    · calc Real.arccos _ * (180 / Real.pi) ≤ Real.pi * (180 / Real.pi) := by
            apply mul_le_mul_of_nonneg_right (Real.arccos_le_pi _)
            positivity
        _ = 180 := by
            field_simp
    · rw [show Real.arccos
          (((a.x - b.x) * (c.x - b.x) + (a.y - b.y) * (c.y - b.y) +
              (a.z - b.z) * (c.z - b.z)) /
            (Real.sqrt ((a.x - b.x) ^ 2 + (a.y - b.y) ^ 2 + (a.z - b.z) ^ 2) *
              Real.sqrt ((c.x - b.x) ^ 2 + (c.y - b.y) ^ 2 + (c.z - b.z) ^ 2))) *
          (180 / Real.pi) * Real.pi / 180 = Real.arccos
          (((a.x - b.x) * (c.x - b.x) + (a.y - b.y) * (c.y - b.y) +
              (a.z - b.z) * (c.z - b.z)) /
            (Real.sqrt ((a.x - b.x) ^ 2 + (a.y - b.y) ^ 2 + (a.z - b.z) ^ 2) *
              Real.sqrt ((c.x - b.x) ^ 2 + (c.y - b.y) ^ 2 + (c.z - b.z) ^ 2))) by
          field_simp]
      exact Real.cos_arccos hq1 hq2

/-- C8 witness: the degenerate branch instantiated at a coincident vertex. -/
theorem C8_witness :
    _angle_between zl zl ⟨1, 1, 1⟩ = 180 :=
  (C8_angle_policy zl zl ⟨1, 1, 1⟩).1 (Or.inl rfl)

/-- C9: straightening one finger never decreases the count: if two full hands
agree outside the landmark block of finger k and finger k passes the
extension test in the second hand, the second count is at least the first. -/
theorem C9_count_monotone (h h2 : List Landmark) (hd : Option String) (k : Fin 5)
    (hl : h.length = 21) (hl2 : h2.length = 21)
    (hagree : ∀ i : ℕ, i ∉ finger_indices k → lm h2 i = lm h i)
    (hk : code_extended h2 k) :
    count_extended_fingers h hd ≤ count_extended_fingers h2 hd := by
  rw [count_eq_sum h hd hl, count_eq_sum h2 hd hl2]
  apply Finset.sum_le_sum
  intro f _
  by_cases hfk : f = k
  · subst hfk
    rw [if_pos hk]
    split_ifs <;> norm_num
  · have hagree2 : ∀ i : ℕ, i = 0 ∨ i ∈ finger_indices f → lm h2 i = lm h i := by
      rintro i (rfl | hi)
      · exact hagree 0 (zero_not_finger k)
      · exact hagree i (finger_indices_disjoint f k hfk i hi)
    rw [if_congr (code_extended_congr f hagree2) rfl rfl]

/-- C9 witness: the statement instantiated with both hands equal to the
all-zero hand and the thumb as the straightened finger. -/
theorem C9_witness :
    pinch_hand.length = 21 ∧ code_extended pinch_hand 0 ∧
    count_extended_fingers pinch_hand none ≤ count_extended_fingers pinch_hand none := by
  have hk : code_extended pinch_hand 0 := by
    simp only [code_extended]
    exact thumb_pinch_hand
  exact ⟨rfl, hk, C9_count_monotone pinch_hand pinch_hand none 0 rfl rfl
    (fun i _ => rfl) hk⟩

/-- C10: the classifier is total and never returns the absence value: the
result is always one of the seven gesture names, and the empty landmark list
yields "fist". -/
theorem C10_classifier_total (lms : List Landmark) (hd : Option String) :
    (∃ g, detect_gesture_with_handedness lms hd = some g ∧
      g ∈ ["pinch", "fist", "one", "two", "three", "four", "five"]) ∧
    detect_gesture [] = some "fist" :=
  ⟨detect_mem lms hd, detect_nil⟩

end Gestures
